import Mathlib

/-!
Verification of the env_monitor telemetry agent (two client variants:
an MQTT broker client `src/mqtt_client.py` and a GCP Pub/Sub client
`src/pubsub_client.py`, plus the sensor helpers `src/temp_sensor.py` and
`src/system_metrics.py`).

The embedding models Python dictionaries as ordered association lists of
string keys and `PyValue`s, Python floats as rationals (only order
comparisons on sensor readings occur, which agree with the rational
order), and fallible Python code as `Option`/`Except`-valued functions.
The two continuous publish loops are modelled as step functions over the
loop's mutable state (`reconnect_count`, and for the broker variant the
client's connection status), driven by environment events (connect and
publish outcomes, operator interrupt).
-/

namespace EnvMonitor

/-- A Python value, as far as the payloads of this program use them:
`None`, booleans, ints, floats (modelled as rationals), strings, lists
and (ordered) dicts. -/
inductive PyValue where
  | none : PyValue
  | bool : Bool → PyValue
  | int : Int → PyValue
  | float : ℚ → PyValue
  | str : String → PyValue
  | list : List PyValue → PyValue
  | dict : List (String × PyValue) → PyValue
deriving Repr

/-- A Python dict with string keys, in insertion order. -/
abbrev PyDict := List (String × PyValue)

/-- Lookup of a key in a dict (`d[k]` / the backing of `d.get`). -/
def lookupKey : PyDict → String → Option PyValue
  | [], _ => Option.none
  | (k', v) :: rest, k => if k' = k then some v else lookupKey rest k

/-- Python `k in d`. -/
def hasKey (d : PyDict) (k : String) : Bool :=
  (lookupKey d k).isSome

/-- Python `d.get(k)`: `None` when the key is absent. -/
def pyGet (d : PyDict) (k : String) : PyValue :=
  (lookupKey d k).getD PyValue.none

/-- Python `d.get(k, default)`. -/
def pyGetD (d : PyDict) (k : String) (default : PyValue) : PyValue :=
  (lookupKey d k).getD default

/-- Python `d[k] = v`: replace the value in place if the key exists
(keeping its position, as CPython dicts do), else append. -/
def setKey : PyDict → String → PyValue → PyDict
  | [], k, v => [(k, v)]
  | (k', v') :: rest, k, v =>
      if k' = k then (k, v) :: rest else (k', v') :: setKey rest k v

/-- Python `isinstance(x, dict)`. -/
def isDict : PyValue → Bool
  | .dict _ => true
  | _ => false

/-- Python `isinstance(x, list)`. -/
def isList : PyValue → Bool
  | .list _ => true
  | _ => false

/-- Python `x is None`. -/
def isNone : PyValue → Bool
  | .none => true
  | _ => false

/-- The numeric value of a `PyValue`, when Python's `<`/`>` against an
int is defined on it (bools count as 0/1); `none` when the comparison
would raise `TypeError`. -/
def asNum : PyValue → Option ℚ
  | .bool b => some (if b then 1 else 0)
  | .int n => some (n : ℚ)
  | .float q => some q
  | _ => Option.none

/-- The entries of the sample's `warnings` list (empty when the key is
absent or its value is not a list). -/
def getWarnings (d : PyDict) : List PyValue :=
  match lookupKey d "warnings" with
  | some (.list xs) => xs
  | _ => []

/-- Whether a `PyValue` is the string `w`. -/
def isWarnStr (w : String) : PyValue → Bool
  | .str s => s = w
  | _ => false

/-- How many times the warning string `w` occurs in the sample's
`warnings` list. -/
def countWarning (d : PyDict) (w : String) : Nat :=
  ((getWarnings d).filter (isWarnStr w)).length

/-- `data["warnings"] = data.get("warnings", []) + [w]` — `none` when
the existing `warnings` value is not a list (Python `+` would raise). -/
def appendWarning (d : PyDict) (w : String) : Option PyDict :=
  match pyGetD d "warnings" (.list []) with
  | .list xs => some (setKey d "warnings" (.list (xs ++ [.str w])))
  | _ => Option.none

/-- `validate_data` from `mqtt_client.py` (the copy in
`pubsub_client.py` is textually identical): warn when
`cpu_temperature` is present, non-`None` and outside `[0, 100]`; warn
when `system_metrics` is absent or not a dict. `none` models the calls
on which the Python code would raise (a non-numeric present
temperature, or a non-list `warnings` value when a warning must be
appended). -/
def validate_data (data : PyDict) : Option PyDict :=
  match
    (if isNone (pyGet data "cpu_temperature") then some data
     else
       match asNum (pyGet data "cpu_temperature") with
       | Option.none => Option.none
       | some cpu_temp =>
           if cpu_temp < 0 ∨ cpu_temp > 100 then
             appendWarning data "Abnormal CPU temperature"
           else some data)
  with
  | Option.none => Option.none
  | some d1 =>
      if hasKey d1 "system_metrics" && isDict (pyGet d1 "system_metrics") then
        some d1
      else appendWarning d1 "Missing system metrics"

/-- The condition under which `validate_data` appends
"Abnormal CPU temperature": `cpu_temperature` present, not `None`,
numeric and strictly outside `[0, 100]`. -/
def tempAbnormal (d : PyDict) : Bool :=
  if isNone (pyGet d "cpu_temperature") then false
  else
    match asNum (pyGet d "cpu_temperature") with
    | Option.none => false
    | some q => decide (q < 0 ∨ q > 100)

/-- The condition under which `validate_data` appends
"Missing system metrics": the key is absent or its value is not a dict. -/
def metricsMissing (d : PyDict) : Bool :=
  !(hasKey d "system_metrics" && isDict (pyGet d "system_metrics"))

/-- The present `cpu_temperature` value is `None` or numeric, so the
range comparison in `validate_data` cannot raise. -/
def tempOk (d : PyDict) : Bool :=
  isNone (pyGet d "cpu_temperature") || (asNum (pyGet d "cpu_temperature")).isSome

/-- The `warnings` value, when present, is a list, so appending a
warning cannot raise. -/
def warningsOk (d : PyDict) : Bool :=
  match lookupKey d "warnings" with
  | Option.none => true
  | some v => isList v

/-! ## Sensor readers (`temp_sensor.py`, `system_metrics.py`) -/

/-- `get_cpu_temperature` from `temp_sensor.py`, as a function of the
outcome of the `vcgencmd` read: a parsed float on success, Python
`None` when the subprocess raised or the regex did not match. -/
def get_cpu_temperature : Option ℚ → PyValue
  | some t => .float t
  | Option.none => .none

/-- The raw psutil readings consumed by `get_system_metrics` when the
collection succeeds. -/
structure RawMetrics where
  cpu_percent : ℚ
  memory_percent : ℚ
  disk_percent : ℚ
  bytes_sent : Nat
  bytes_recv : Nat

/-- `round(x, 1)`: rounding to one decimal place (tie behaviour of the
Python float round is irrelevant to every property proved here). -/
def round1 (q : ℚ) : ℚ := (round (10 * q) : ℤ) / 10

/-- `get_system_metrics` from `system_metrics.py`, as a function of the
outcome of the psutil calls: the full metric mapping on success, the
error-marker dict `{"status": "error", "message": str(e)}` when any of
them raised. -/
def get_system_metrics : Except String RawMetrics → PyValue
  | .ok m => .dict
      [("cpu_percent", .float (round1 m.cpu_percent)),
       ("memory_percent", .float (round1 m.memory_percent)),
       ("disk_percent", .float (round1 m.disk_percent)),
       ("network", .dict
          [("bytes_sent", .int (m.bytes_sent : Int)),
           ("bytes_recv", .int (m.bytes_recv : Int))])]
  | .error e => .dict [("status", .str "error"), ("message", .str e)]

/-! ## Payload builder -/

/-- `get_env_monitoring_data` (identical structure in both client
variants), as a function of the configured identity/interval, the
timestamp captured at call time, and the two sensor readings. -/
def get_env_monitoring_data (device_id timestamp : String)
    (sample_interval : Int) (cpu_temp system_metrics : PyValue) : PyDict :=
  setKey
    [("device_id", .str device_id),
     ("timestamp", .str timestamp),
     ("cpu_temperature", cpu_temp),
     ("system_metrics", system_metrics),
     ("version", .str "1.0.0")]
    "metadata"
    (.dict
      [("sample_interval_seconds", .int sample_interval),
       ("available_sensors",
        .list [.str "cpu_temperature", .str "system_metrics"])])

/-! ## Publish steps -/

/-- `mqtt.MQTT_ERR_SUCCESS`. -/
def MQTT_ERR_SUCCESS : Int := 0

/-- `publish_data` from `mqtt_client.py`, as a function of the outcomes
of its fallible sub-steps: the data collection (`collect`), the JSON
serialization (`dumps`) and the broker hand-off (`publishRc`, either a
raised exception or the returned `result.rc`). Every exception is
caught by the function's `try/except` and turned into `False`; `True`
is returned only when `result.rc == mqtt.MQTT_ERR_SUCCESS`. -/
def publish_data (collect : Except String PyDict)
    (dumps : Except String String) (publishRc : Except String Int) : Bool :=
  match collect with
  | .error _ => false
  | .ok data =>
      match validate_data data with
      | Option.none => false
      | some _ =>
          match dumps with
          | .error _ => false
          | .ok _ =>
              match publishRc with
              | .error _ => false
              | .ok rc => if rc ≠ MQTT_ERR_SUCCESS then false else true

/-- `publish_data_to_pubsub` from `pubsub_client.py`, as a function of
the outcomes of its fallible sub-steps: publisher-client construction
(`publisherInit`), data collection (`collect`), JSON serialization
(`dumps`) and `future.result()` (`publishResult`, the backend-assigned
message id on success). Every exception is caught and turned into
`False`; `True` is returned exactly when a message id came back. -/
def publish_data_to_pubsub (publisherInit : Except String Unit)
    (collect : Except String PyDict) (dumps : Except String String)
    (publishResult : Except String String) : Bool :=
  match publisherInit with
  | .error _ => false
  | .ok _ =>
      match collect with
      | .error _ => false
      | .ok data =>
          match validate_data data with
          | Option.none => false
          | some _ =>
              match dumps with
              | .error _ => false
              | .ok _ =>
                  match publishResult with
                  | .error _ => false
                  | .ok _ => true

/-! ## The continuous loops -/

/-- `max_reconnect_attempts` in both `run_continuous` variants. -/
def max_reconnect_attempts : Nat := 10

/-- `reconnect_delay` (seconds) in both `run_continuous` variants. -/
def reconnect_delay : Nat := 5

/-- The outcome of one loop iteration: keep running with a new loop
state after sleeping `slept` seconds, or leave `run_continuous` so that
the process exits with `code`. -/
inductive StepResult (σ : Type) where
  | running (s : σ) (slept : Nat)
  | exited (code : Nat)
deriving Repr

/-- The loop-local state of `mqtt_client.run_continuous`: whether
`client.is_connected()` currently holds, and `reconnect_count`. -/
structure MqttLoopState where
  connected : Bool
  reconnect_count : Nat
deriving Repr

/-- What the environment does to one iteration of
`mqtt_client.run_continuous`: a normal tick (with the outcome of
`client.connect`, consulted only when the client is not connected, and
of `publish_data`), a broker-side connection drop between ticks, a
`KeyboardInterrupt`, or an unexpected exception that is not a
`ConnectionError` (caught by the outer `except Exception`). -/
inductive MqttEvent where
  | tick (connectOk : Bool) (publishOk : Bool)
  | drop
  | interrupt
  | fatal

/-- One iteration of the `while True` loop of
`mqtt_client.run_continuous`. A `ConnectionError` from `client.connect`
increments `reconnect_count`; past `max_reconnect_attempts` the raise
propagates to the outer `except Exception`, which logs and falls
through to `finally`, so `run_continuous` returns and the process exits
with code 0 — the same exit the `KeyboardInterrupt` handler produces.
Otherwise the loop sleeps `reconnect_delay * reconnect_count` and
retries with a fresh (disconnected) client. On a successful connect
`reconnect_count` is reset to 0; a failed `publish_data` only logs a
warning and changes nothing. -/
def mqtt_run_continuous_step (interval : Nat) (s : MqttLoopState) :
    MqttEvent → StepResult MqttLoopState
  | .interrupt => .exited 0
  | .fatal => .exited 0
  | .drop => .running ⟨false, s.reconnect_count⟩ 0
  | .tick connectOk _publishOk =>
      if !s.connected && !connectOk then
        let c := s.reconnect_count + 1
        if c > max_reconnect_attempts then .exited 0
        else .running ⟨false, c⟩ (reconnect_delay * c)
      else
        .running ⟨true, if s.connected then s.reconnect_count else 0⟩
          interval

/-- States of `mqtt_client.run_continuous` reachable from its start
(fresh client, `reconnect_count = 0`) through running steps. -/
inductive MqttReach (interval : Nat) : MqttLoopState → Prop where
  | init : MqttReach interval ⟨false, 0⟩
  | step (s s' : MqttLoopState) (e : MqttEvent) (t : Nat) :
      MqttReach interval s →
      mqtt_run_continuous_step interval s e = .running s' t →
      MqttReach interval s'

/-- What the environment does to one iteration of
`pubsub_client.run_continuous`: a tick with the outcome of
`publish_data_to_pubsub` (which never raises), or a
`KeyboardInterrupt`. -/
inductive PubsubEvent where
  | tick (publishOk : Bool)
  | interrupt

/-- One iteration of the `while True` loop of
`pubsub_client.run_continuous` (the state is just `reconnect_count`).
On a failed publish the counter is incremented; past
`max_reconnect_attempts` the `raise Exception(...)` is caught by the
iteration's own `except Exception`, which increments the counter again
and re-raises, reaching the outer `except Exception`, so the function
returns and the process exits with code 0. Otherwise the loop sleeps
`reconnect_delay * reconnect_count` and retries. A successful publish
resets the counter to 0 and sleeps the sampling interval. -/
def pubsub_run_continuous_step (interval : Nat) (reconnect_count : Nat) :
    PubsubEvent → StepResult Nat
  | .interrupt => .exited 0
  | .tick publishOk =>
      if publishOk then .running 0 interval
      else
        let c := reconnect_count + 1
        if c > max_reconnect_attempts then
          let c2 := c + 1
          if c2 > max_reconnect_attempts then .exited 0
          else .running c2 (reconnect_delay * c2)
        else .running c (reconnect_delay * c)

/-! ## Dictionary lemmas -/

theorem lookupKey_setKey_self (d : PyDict) (k : String) (v : PyValue) :
    lookupKey (setKey d k v) k = some v := by
  induction d with
  | nil => simp [setKey, lookupKey]
  | cons kv rest ih =>
      obtain ⟨k', v'⟩ := kv
      by_cases hk : k' = k
      · simp [setKey, hk, lookupKey]
      · simp [setKey, hk, lookupKey, ih]

theorem lookupKey_setKey_ne (d : PyDict) (k k' : String) (v : PyValue)
    (hne : k' ≠ k) : lookupKey (setKey d k v) k' = lookupKey d k' := by
  induction d with
  | nil => simp [setKey, lookupKey, Ne.symm hne]
  | cons kv rest ih =>
      obtain ⟨k'', v''⟩ := kv
      by_cases hk : k'' = k
      · subst hk
        simp [setKey, lookupKey, Ne.symm hne]
      · simp [setKey, hk, lookupKey, ih]

theorem getWarnings_setKey_list (d : PyDict) (xs : List PyValue) :
    getWarnings (setKey d "warnings" (.list xs)) = xs := by
  simp [getWarnings, lookupKey_setKey_self]

theorem appendWarning_some (d d' : PyDict) (w : String)
    (h : appendWarning d w = some d') :
    getWarnings d' = getWarnings d ++ [.str w] ∧
      ∀ k, k ≠ "warnings" → lookupKey d' k = lookupKey d k := by
  unfold appendWarning pyGetD at h
  rcases hw : lookupKey d "warnings" with _ | v
  · rw [hw] at h
    simp only [Option.getD_none] at h
    injection h with h
    subst h
    refine ⟨?_, fun k hk => lookupKey_setKey_ne d "warnings" k _ hk⟩
    rw [getWarnings_setKey_list]
    simp [getWarnings, hw]
  · rw [hw] at h
    cases v with
    | list xs =>
        simp only [Option.getD_some] at h
        injection h with h
        subst h
        refine ⟨?_, fun k hk => lookupKey_setKey_ne d "warnings" k _ hk⟩
        rw [getWarnings_setKey_list]
        simp [getWarnings, hw]
    | none => simp at h
    | bool b => simp at h
    | int n => simp at h
    | float q => simp at h
    | str s => simp at h
    | dict fs => simp at h

theorem appendWarning_isSome (d : PyDict) (w : String)
    (hw : warningsOk d = true) : (appendWarning d w).isSome = true := by
  unfold appendWarning pyGetD
  unfold warningsOk at hw
  rcases hkey : lookupKey d "warnings" with _ | v
  · simp
  · rw [hkey] at hw
    cases v with
    | list xs => simp
    | none => simp [isList] at hw
    | bool b => simp [isList] at hw
    | int n => simp [isList] at hw
    | float q => simp [isList] at hw
    | str s => simp [isList] at hw
    | dict fs => simp [isList] at hw

/-! ## `validate_data` characterization -/

/-- The second check of `validate_data` (system metrics), run on the
dict `d1` produced by the first check, appends
"Missing system metrics" exactly when the original dict `d` lacks a
dict-valued `system_metrics` entry. -/
theorem validate_stage2 (d d1 d' : PyDict)
    (hl : ∀ k, k ≠ "warnings" → lookupKey d1 k = lookupKey d k)
    (h : (if hasKey d1 "system_metrics" && isDict (pyGet d1 "system_metrics")
          then some d1 else appendWarning d1 "Missing system metrics") = some d') :
    getWarnings d' = getWarnings d1
      ++ (if metricsMissing d = true
          then [PyValue.str "Missing system metrics"] else []) := by
  have hsm : lookupKey d1 "system_metrics" = lookupKey d "system_metrics" :=
    hl _ (by decide)
  have hcond : (hasKey d1 "system_metrics" && isDict (pyGet d1 "system_metrics"))
      = !metricsMissing d := by
    simp [metricsMissing, hasKey, pyGet, hsm]
  rw [hcond] at h
  by_cases hm : metricsMissing d = true
  · rw [hm] at h
    simp only [Bool.not_true, Bool.false_eq_true, if_false] at h
    rcases appendWarning_some _ _ _ h with ⟨hg, _⟩
    simp [hm, hg]
  · rw [Bool.not_eq_true] at hm
    rw [hm] at h
    simp only [Bool.not_false, if_true] at h
    injection h with h
    subst h
    simp [hm]

theorem warningsOk_appendWarning (d d1 : PyDict) (w : String)
    (h : appendWarning d w = some d1) : warningsOk d1 = true := by
  unfold appendWarning at h
  rcases hw : pyGetD d "warnings" (.list []) with _ | b | n | q | s | xs | fs
  all_goals rw [hw] at h
  all_goals simp at h
  rw [← h]
  simp [warningsOk, lookupKey_setKey_self, isList]

/-- The full effect of `validate_data` on the `warnings` list: it
appends "Abnormal CPU temperature" exactly when `tempAbnormal` holds of
the input and then "Missing system metrics" exactly when
`metricsMissing` holds of the input, in that order, after the existing
entries. -/
theorem validate_data_warnings (d d' : PyDict) (h : validate_data d = some d') :
    getWarnings d' = (getWarnings d
        ++ (if tempAbnormal d = true
            then [PyValue.str "Abnormal CPU temperature"] else []))
      ++ (if metricsMissing d = true
          then [PyValue.str "Missing system metrics"] else []) := by
  unfold validate_data at h
  by_cases hnone : isNone (pyGet d "cpu_temperature") = true
  · have habn : tempAbnormal d = false := by simp [tempAbnormal, hnone]
    simp only [hnone, if_true] at h
    have h2 := validate_stage2 d d d' (fun k _ => rfl) h
    simp [habn, h2]
  · rw [Bool.not_eq_true] at hnone
    rcases hq : asNum (pyGet d "cpu_temperature") with _ | q
    · simp only [hnone, Bool.false_eq_true, if_false, hq] at h
      exact Option.noConfusion h
    · simp only [hnone, Bool.false_eq_true, if_false, hq] at h
      by_cases habn : q < 0 ∨ q > 100
      · rw [if_pos habn] at h
        have htA : tempAbnormal d = true := by
          simp [tempAbnormal, hnone, hq, habn]
        rcases happ : appendWarning d "Abnormal CPU temperature" with _ | d1
        · rw [happ] at h
          simp at h
        · rw [happ] at h
          simp only [] at h
          obtain ⟨hg1, hl1⟩ := appendWarning_some _ _ _ happ
          have h2 := validate_stage2 d d1 d' hl1 h
          simp [htA, h2, hg1]
      · rw [if_neg habn] at h
        simp only [] at h
        have htA : tempAbnormal d = false := by
          simp [tempAbnormal, hnone, hq, habn]
        have h2 := validate_stage2 d d d' (fun k _ => rfl) h
        simp [htA, h2]

/-- `validate_data` succeeds whenever the present `cpu_temperature` is
`None` or numeric and the present `warnings` value is a list — in
particular on every payload the builder produces. -/
theorem validate_data_isSome (d : PyDict) (ht : tempOk d = true)
    (hw : warningsOk d = true) : (validate_data d).isSome = true := by
  unfold validate_data
  by_cases hnone : isNone (pyGet d "cpu_temperature") = true
  · simp only [hnone, if_true]
    by_cases hm : (hasKey d "system_metrics" && isDict (pyGet d "system_metrics")) = true
    · simp [hm]
    · rw [Bool.not_eq_true] at hm
      simp [hm, appendWarning_isSome d _ hw]
  · rw [Bool.not_eq_true] at hnone
    rcases hq : asNum (pyGet d "cpu_temperature") with _ | q
    · exfalso
      unfold tempOk at ht
      simp [hnone, hq] at ht
    · simp only [hnone, Bool.false_eq_true, if_false, hq]
      by_cases habn : q < 0 ∨ q > 100
      · rw [if_pos habn]
        have h1 := appendWarning_isSome d "Abnormal CPU temperature" hw
        rcases Option.isSome_iff_exists.mp h1 with ⟨d1, hd1⟩
        rw [hd1]
        simp only []
        have hw1 : warningsOk d1 = true := warningsOk_appendWarning _ _ _ hd1
        by_cases hm : (hasKey d1 "system_metrics" && isDict (pyGet d1 "system_metrics")) = true
        · simp [hm]
        · rw [Bool.not_eq_true] at hm
          simp [hm, appendWarning_isSome d1 _ hw1]
      · rw [if_neg habn]
        simp only []
        by_cases hm : (hasKey d "system_metrics" && isDict (pyGet d "system_metrics")) = true
        · simp [hm]
        · rw [Bool.not_eq_true] at hm
          simp [hm, appendWarning_isSome d _ hw]

/-! ## Loop lemmas -/

/-- Invariant of `mqtt_client.run_continuous`: whenever the client is
connected, `reconnect_count` is 0 (a successful connect resets it, and
every path that leaves it positive also leaves the client
disconnected). -/
theorem mqttReach_connected_zero (interval : Nat) (s : MqttLoopState)
    (h : MqttReach interval s) : s.connected = true → s.reconnect_count = 0 := by
  induction h with
  | init => intro hc; simp at hc
  | step s s' e t _ heq ih =>
      intro hc
      cases e with
      | interrupt => exact StepResult.noConfusion heq
      | fatal => exact StepResult.noConfusion heq
      | drop =>
          injection heq with h1 h2
          rw [← h1] at hc
          simp at hc
      | tick connectOk publishOk =>
          simp only [mqtt_run_continuous_step] at heq
          by_cases hcon : (!s.connected && !connectOk) = true
          · rw [if_pos hcon] at heq
            by_cases hmax : s.reconnect_count + 1 > max_reconnect_attempts
            · rw [if_pos hmax] at heq
              exact StepResult.noConfusion heq
            · rw [if_neg hmax] at heq
              injection heq with h1 h2
              rw [← h1] at hc
              simp at hc
          · rw [Bool.not_eq_true] at hcon
            rw [hcon] at heq
            simp only [Bool.false_eq_true, if_false] at heq
            injection heq with h1 h2
            rw [← h1]
            by_cases hsc : s.connected = true
            · simp [hsc, ih hsc]
            · rw [Bool.not_eq_true] at hsc
              simp [hsc]

/-- The payload built by `get_env_monitoring_data`, written out. -/
theorem get_env_monitoring_data_eq (device_id timestamp : String)
    (sample_interval : Int) (cpu_temp system_metrics : PyValue) :
    get_env_monitoring_data device_id timestamp sample_interval cpu_temp
        system_metrics
      = [("device_id", .str device_id),
         ("timestamp", .str timestamp),
         ("cpu_temperature", cpu_temp),
         ("system_metrics", system_metrics),
         ("version", .str "1.0.0"),
         ("metadata", .dict
           [("sample_interval_seconds", .int sample_interval),
            ("available_sensors",
             .list [.str "cpu_temperature", .str "system_metrics"])])] := rfl

/-! ## Claim theorems -/

/-- C1: with `reconnect_delay = 5` and `max_reconnect_attempts = 10`,
the wait before retry attempt `k` (`k = 1..10`) is exactly `5 * k`
seconds in both continuous loops (linear backoff), and the 11th
consecutive failure makes the loop terminate instead of sleeping
again. -/
theorem C1_backoff_linear (interval k : Nat) (h1 : 1 ≤ k) (h10 : k ≤ 10)
    (publishOk : Bool) :
    (mqtt_run_continuous_step interval ⟨false, k - 1⟩ (.tick false publishOk)
        = .running ⟨false, k⟩ (5 * k)) ∧
    (pubsub_run_continuous_step interval (k - 1) (.tick false)
        = .running k (5 * k)) ∧
    (mqtt_run_continuous_step interval ⟨false, 10⟩ (.tick false publishOk)
        = .exited 0) ∧
    (pubsub_run_continuous_step interval 10 (.tick false) = .exited 0) := by
  have hk : k - 1 + 1 = k := Nat.succ_pred_eq_of_pos h1
  have hnot : ¬ (k > 10) := by omega
  refine ⟨?_, ?_, rfl, rfl⟩
  · simp [mqtt_run_continuous_step, max_reconnect_attempts, reconnect_delay,
      hk, hnot]
  · simp [pubsub_run_continuous_step, max_reconnect_attempts, reconnect_delay,
      hk, hnot]

theorem C1_backoff_linear_witness :
    (mqtt_run_continuous_step 60 ⟨false, 2⟩ (.tick false false)
        = .running ⟨false, 3⟩ (5 * 3)) ∧
    (pubsub_run_continuous_step 60 2 (.tick false) = .running 3 (5 * 3)) ∧
    (mqtt_run_continuous_step 60 ⟨false, 10⟩ (.tick false false)
        = .exited 0) ∧
    (pubsub_run_continuous_step 60 10 (.tick false) = .exited 0) :=
  C1_backoff_linear 60 3 (by decide) (by decide) false

/-- C2: in the broker (MQTT) loop the publish outcome does not change
the step at all — the retry counter, the connection and the sleep are
the same whether the publish succeeded or failed — while in the cloud
(Pub/Sub) loop every publish failure increments the shared retry
counter (and exhausts the same termination budget). -/
theorem C2_publish_failure_budget (interval : Nat) :
    (∀ (s : MqttLoopState) (connectOk p1 p2 : Bool),
        mqtt_run_continuous_step interval s (.tick connectOk p1)
          = mqtt_run_continuous_step interval s (.tick connectOk p2)) ∧
    (∀ c : Nat, c < 10 →
        pubsub_run_continuous_step interval c (.tick false)
          = .running (c + 1) (5 * (c + 1))) ∧
    (∀ c : Nat, 10 ≤ c →
        pubsub_run_continuous_step interval c (.tick false) = .exited 0) := by
  refine ⟨fun s cOk p1 p2 => rfl, fun c hc => ?_, fun c hc => ?_⟩
  · have hnot : ¬ (c + 1 > 10) := by omega
    simp [pubsub_run_continuous_step, max_reconnect_attempts, reconnect_delay,
      hnot]
  · have hgt : c + 1 > 10 := by omega
    have hgt2 : c + 1 + 1 > 10 := by omega
    simp [pubsub_run_continuous_step, max_reconnect_attempts, hgt, hgt2]

theorem C2_publish_failure_budget_witness :
    (mqtt_run_continuous_step 60 ⟨true, 0⟩ (.tick true false)
        = mqtt_run_continuous_step 60 ⟨true, 0⟩ (.tick true true)) ∧
    (pubsub_run_continuous_step 60 4 (.tick false) = .running (4 + 1) (5 * (4 + 1))) ∧
    (pubsub_run_continuous_step 60 10 (.tick false) = .exited 0) :=
  ⟨(C2_publish_failure_budget 60).1 ⟨true, 0⟩ true false true,
   (C2_publish_failure_budget 60).2.1 4 (by decide),
   (C2_publish_failure_budget 60).2.2 10 (by decide)⟩

/-- C3: in both continuous loops, after any tick on which a publish was
attempted — which requires the connect to have succeeded or the client
to already be connected — the retry counter is 0; in particular a
successful publish and a successful (re)connect leave
`reconnect_count = 0`. For the broker loop this uses the reachability
invariant that a connected client always has a zero counter; for the
cloud loop a successful publish resets the counter explicitly. -/
theorem C3_reset_on_success (interval : Nat) :
    (∀ (s s' : MqttLoopState) (t : Nat) (connectOk publishOk : Bool),
        MqttReach interval s →
        mqtt_run_continuous_step interval s (.tick connectOk publishOk)
          = .running s' t →
        s'.connected = true → s'.reconnect_count = 0) ∧
    (∀ c : Nat, pubsub_run_continuous_step interval c (.tick true)
        = .running 0 interval) := by
  refine ⟨fun s s' t cOk pOk hreach heq hconn => ?_, fun c => rfl⟩
  exact mqttReach_connected_zero interval s'
    (MqttReach.step s s' _ t hreach heq) hconn

theorem C3_reset_on_success_witness :
    (MqttLoopState.mk true 0).reconnect_count = 0 ∧
    pubsub_run_continuous_step 60 5 (.tick true) = .running 0 60 :=
  ⟨(C3_reset_on_success 60).1 ⟨false, 0⟩ ⟨true, 0⟩ 60 true true
      MqttReach.init rfl rfl,
   (C3_reset_on_success 60).2 5⟩

/-- C6 (counterexample): on retry-budget exhaustion both loops leave
`run_continuous` through its `except Exception` handler, which logs and
returns normally, so the process exit code is 0 — not non-zero as the
claim states. Concretely: with the counter at 10, one more failure
terminates with exit code 0 in both variants. -/
theorem C6_counterexample :
    mqtt_run_continuous_step 60 ⟨false, 10⟩ (.tick false false) = .exited 0 ∧
    pubsub_run_continuous_step 60 10 (.tick false) = .exited 0 :=
  ⟨rfl, rfl⟩

/-- C6 (amended): the continuous loops terminate only on an operator
interrupt or on a fatal error (for the broker loop: an unexpected
exception or the retry budget exhausted by connect failures; for the
cloud loop: the budget exhausted by publish failures), and in every
such case the process exit code is 0, because `run_continuous` catches
`KeyboardInterrupt` and `Exception` and returns normally. -/
theorem C6_exit_code_zero (interval : Nat) :
    (∀ (s : MqttLoopState) (e : MqttEvent) (code : Nat),
        mqtt_run_continuous_step interval s e = .exited code →
        code = 0 ∧
          (e = .interrupt ∨ e = .fatal ∨
            ∃ p, e = .tick false p ∧ s.connected = false ∧
              10 ≤ s.reconnect_count)) ∧
    (∀ (c : Nat) (e : PubsubEvent) (code : Nat),
        pubsub_run_continuous_step interval c e = .exited code →
        code = 0 ∧ (e = .interrupt ∨ (e = .tick false ∧ 10 ≤ c))) := by
  constructor
  · intro s e code heq
    cases e with
    | interrupt =>
        injection heq with h
        exact ⟨h.symm, Or.inl rfl⟩
    | fatal =>
        injection heq with h
        exact ⟨h.symm, Or.inr (Or.inl rfl)⟩
    | drop => exact StepResult.noConfusion heq
    | tick cOk pOk =>
        simp only [mqtt_run_continuous_step] at heq
        by_cases hcon : (!s.connected && !cOk) = true
        · rw [if_pos hcon] at heq
          by_cases hmax : s.reconnect_count + 1 > max_reconnect_attempts
          · rw [if_pos hmax] at heq
            injection heq with h
            rw [Bool.and_eq_true] at hcon
            obtain ⟨hc1, hc2⟩ := hcon
            rw [Bool.not_eq_true'] at hc1 hc2
            have hge : s.reconnect_count + 1 > 10 := hmax
            refine ⟨h.symm, Or.inr (Or.inr ⟨pOk, ?_, hc1, by omega⟩)⟩
            rw [hc2]
          · rw [if_neg hmax] at heq
            exact StepResult.noConfusion heq
        · rw [Bool.not_eq_true] at hcon
          rw [hcon] at heq
          simp only [Bool.false_eq_true, if_false] at heq
          exact StepResult.noConfusion heq
  · intro c e code heq
    cases e with
    | interrupt =>
        injection heq with h
        exact ⟨h.symm, Or.inl rfl⟩
    | tick pOk =>
        cases pOk with
        | true => exact StepResult.noConfusion heq
        | false =>
            simp only [pubsub_run_continuous_step, Bool.false_eq_true,
              if_false] at heq
            by_cases hmax : c + 1 > max_reconnect_attempts
            · have hge : c + 1 > 10 := hmax
              have hmax2 : c + 1 + 1 > max_reconnect_attempts := by
                show c + 1 + 1 > 10
                omega
              rw [if_pos hmax, if_pos hmax2] at heq
              injection heq with h
              exact ⟨h.symm, Or.inr ⟨rfl, by omega⟩⟩
            · rw [if_neg hmax] at heq
              exact StepResult.noConfusion heq

theorem C6_exit_code_zero_witness :
    (0 : Nat) = 0 ∧
      (MqttEvent.tick false false = MqttEvent.interrupt ∨
        MqttEvent.tick false false = MqttEvent.fatal ∨
        ∃ p, MqttEvent.tick false false = MqttEvent.tick false p ∧
          (MqttLoopState.mk false 10).connected = false ∧
          10 ≤ (MqttLoopState.mk false 10).reconnect_count) :=
  (C6_exit_code_zero 60).1 ⟨false, 10⟩ (.tick false false) 0 rfl

/-- C4 (counterexample): a sample whose `system_metrics` is the
error-marker object `{status: "error", message: ...}` gets NO
"Missing system metrics" warning from `validate_data` — the code only
tests `isinstance(..., dict)` and the error-marker is a dict — so the
claim that the warning is appended for the error-marker is false. -/
theorem C4_counterexample :
    validate_data [("system_metrics",
        .dict [("status", .str "error"), ("message", .str "boom")])]
      = some [("system_metrics",
          .dict [("status", .str "error"), ("message", .str "boom")])] ∧
    countWarning [("system_metrics",
        .dict [("status", .str "error"), ("message", .str "boom")])]
      "Missing system metrics" = 0 :=
  ⟨rfl, rfl⟩

/-- C4 (amended): `validate_data` appends "Missing system metrics"
exactly when `system_metrics` is absent or its value is not a dict;
the error-marker object, being a dict, does not trigger the warning. -/
theorem C4_missing_metrics_characterization (d d' : PyDict)
    (h : validate_data d = some d') :
    countWarning d' "Missing system metrics"
      = countWarning d "Missing system metrics"
        + (if metricsMissing d = true then 1 else 0) := by
  have hchar := validate_data_warnings d d' h
  unfold countWarning
  rw [hchar, List.filter_append, List.filter_append, List.length_append,
    List.length_append]
  by_cases hA : tempAbnormal d = true <;>
    by_cases hM : metricsMissing d = true <;>
      simp [hA, hM, isWarnStr]

theorem C4_missing_metrics_characterization_witness :
    countWarning [("warnings", .list [.str "Missing system metrics"])]
        "Missing system metrics"
      = countWarning ([] : PyDict) "Missing system metrics"
        + (if metricsMissing ([] : PyDict) = true then 1 else 0) :=
  C4_missing_metrics_characterization []
    [("warnings", .list [.str "Missing system metrics"])] rfl

/-- C5: `validate_data` appends "Abnormal CPU temperature" exactly once
when `cpu_temperature` is present, non-`None`, numeric and strictly
outside `[0, 100]` (that is `tempAbnormal`), and appends no such
warning when the value is inside the range or absent. -/
theorem C5_abnormal_temp (d d' : PyDict) (h : validate_data d = some d') :
    countWarning d' "Abnormal CPU temperature"
      = countWarning d "Abnormal CPU temperature"
        + (if tempAbnormal d = true then 1 else 0) := by
  have hchar := validate_data_warnings d d' h
  unfold countWarning
  rw [hchar, List.filter_append, List.filter_append, List.length_append,
    List.length_append]
  by_cases hA : tempAbnormal d = true <;>
    by_cases hM : metricsMissing d = true <;>
      simp [hA, hM, isWarnStr]

theorem C5_abnormal_temp_witness :
    countWarning [("cpu_temperature", .float 150), ("system_metrics", .dict []),
        ("warnings", .list [.str "Abnormal CPU temperature"])]
        "Abnormal CPU temperature"
      = countWarning [("cpu_temperature", .float 150),
            ("system_metrics", .dict [])] "Abnormal CPU temperature"
        + (if tempAbnormal [("cpu_temperature", .float 150),
              ("system_metrics", .dict [])] = true then 1 else 0) :=
  C5_abnormal_temp
    [("cpu_temperature", .float 150), ("system_metrics", .dict [])]
    [("cpu_temperature", .float 150), ("system_metrics", .dict []),
     ("warnings", .list [.str "Abnormal CPU temperature"])] rfl

/-- C7: the `warnings` sequence is additive under validation — on every
successful run of `validate_data`, the output `warnings` list is the
input list followed by zero or more appended entries, so every prior
entry survives in its original order. -/
theorem C7_warnings_additive (d d' : PyDict) (h : validate_data d = some d') :
    ∃ appended, getWarnings d' = getWarnings d ++ appended :=
  ⟨(if tempAbnormal d = true
      then [PyValue.str "Abnormal CPU temperature"] else [])
    ++ (if metricsMissing d = true
        then [PyValue.str "Missing system metrics"] else []),
   by rw [validate_data_warnings d d' h, List.append_assoc]⟩

theorem C7_warnings_additive_witness :
    ∃ appended,
      getWarnings [("warnings",
          .list [.str "prior", .str "Missing system metrics"])]
        = getWarnings [("warnings", .list [.str "prior"])] ++ appended :=
  C7_warnings_additive [("warnings", .list [.str "prior"])]
    [("warnings", .list [.str "prior", .str "Missing system metrics"])] rfl

/-- C8: for every pair of sensor readings — including an absent
temperature (`None`) and an error-marker metrics value — the payload
builder succeeds (it is a total function) and its output contains all
six required top-level fields, with `metadata.available_sensors` equal
to the fixed list `["cpu_temperature", "system_metrics"]`. -/
theorem C8_builder_fields (cpu : Option ℚ) (m : Except String RawMetrics)
    (device_id timestamp : String) (sample_interval : Int) :
    hasKey (get_env_monitoring_data device_id timestamp sample_interval
        (get_cpu_temperature cpu) (get_system_metrics m)) "device_id" = true ∧
    hasKey (get_env_monitoring_data device_id timestamp sample_interval
        (get_cpu_temperature cpu) (get_system_metrics m)) "timestamp" = true ∧
    hasKey (get_env_monitoring_data device_id timestamp sample_interval
        (get_cpu_temperature cpu) (get_system_metrics m))
      "cpu_temperature" = true ∧
    hasKey (get_env_monitoring_data device_id timestamp sample_interval
        (get_cpu_temperature cpu) (get_system_metrics m))
      "system_metrics" = true ∧
    hasKey (get_env_monitoring_data device_id timestamp sample_interval
        (get_cpu_temperature cpu) (get_system_metrics m)) "version" = true ∧
    hasKey (get_env_monitoring_data device_id timestamp sample_interval
        (get_cpu_temperature cpu) (get_system_metrics m)) "metadata" = true ∧
    ∃ meta,
      lookupKey (get_env_monitoring_data device_id timestamp sample_interval
          (get_cpu_temperature cpu) (get_system_metrics m)) "metadata"
        = some (.dict meta) ∧
      lookupKey meta "available_sensors"
        = some (.list [.str "cpu_temperature", .str "system_metrics"]) :=
  ⟨rfl, rfl, rfl, rfl, rfl, rfl,
   ⟨[("sample_interval_seconds", .int sample_interval),
     ("available_sensors",
      .list [.str "cpu_temperature", .str "system_metrics"])], rfl, rfl⟩⟩

theorem C8_builder_fields_witness :
    hasKey (get_env_monitoring_data "raspberry_pi_monitor" "t0" 60
        (get_cpu_temperature Option.none)
        (get_system_metrics (.error "boom"))) "device_id" = true ∧
    hasKey (get_env_monitoring_data "raspberry_pi_monitor" "t0" 60
        (get_cpu_temperature Option.none)
        (get_system_metrics (.error "boom"))) "timestamp" = true ∧
    hasKey (get_env_monitoring_data "raspberry_pi_monitor" "t0" 60
        (get_cpu_temperature Option.none)
        (get_system_metrics (.error "boom"))) "cpu_temperature" = true ∧
    hasKey (get_env_monitoring_data "raspberry_pi_monitor" "t0" 60
        (get_cpu_temperature Option.none)
        (get_system_metrics (.error "boom"))) "system_metrics" = true ∧
    hasKey (get_env_monitoring_data "raspberry_pi_monitor" "t0" 60
        (get_cpu_temperature Option.none)
        (get_system_metrics (.error "boom"))) "version" = true ∧
    hasKey (get_env_monitoring_data "raspberry_pi_monitor" "t0" 60
        (get_cpu_temperature Option.none)
        (get_system_metrics (.error "boom"))) "metadata" = true ∧
    ∃ meta,
      lookupKey (get_env_monitoring_data "raspberry_pi_monitor" "t0" 60
          (get_cpu_temperature Option.none)
          (get_system_metrics (.error "boom"))) "metadata"
        = some (.dict meta) ∧
      lookupKey meta "available_sensors"
        = some (.list [.str "cpu_temperature", .str "system_metrics"]) :=
  C8_builder_fields Option.none (.error "boom") "raspberry_pi_monitor" "t0" 60

/-- C9: `publish_data` (broker) and `publish_data_to_pubsub` (cloud)
never let an exception escape — every exceptional outcome of client
construction, collection, validation, serialization or delivery is
caught and mapped to `False` (the step functions are total and
Bool-valued) — and they return `True` exactly when every stage
succeeded and the transport reported success: `result.rc` equal to
`MQTT_ERR_SUCCESS` for the broker, a backend-assigned message id from
`future.result()` for the cloud. -/
theorem C9_publish_success_iff
    (collect : Except String PyDict) (dumps : Except String String)
    (publishRc : Except String Int) (publisherInit : Except String Unit)
    (publishResult : Except String String) :
    (publish_data collect dumps publishRc = true ↔
      (∃ d, collect = .ok d ∧ (validate_data d).isSome = true) ∧
        (∃ s, dumps = .ok s) ∧ publishRc = .ok MQTT_ERR_SUCCESS) ∧
    (publish_data_to_pubsub publisherInit collect dumps publishResult = true ↔
      publisherInit = .ok () ∧
        (∃ d, collect = .ok d ∧ (validate_data d).isSome = true) ∧
        (∃ s, dumps = .ok s) ∧ ∃ msgId, publishResult = .ok msgId) := by
  constructor
  · rcases collect with e | d
    · simp [publish_data]
    · rcases hv : validate_data d with _ | d1
      · simp [publish_data, hv]
      · rcases dumps with e2 | s
        · simp [publish_data, hv]
        · rcases publishRc with e3 | rc
          · simp [publish_data, hv]
          · by_cases hrc : rc = MQTT_ERR_SUCCESS
            · simp [publish_data, hv, hrc]
            · simp [publish_data, hv, hrc]
  · rcases publisherInit with e0 | u
    · simp [publish_data_to_pubsub]
    · rcases collect with e | d
      · simp [publish_data_to_pubsub]
      · rcases hv : validate_data d with _ | d1
        · simp [publish_data_to_pubsub, hv]
        · rcases dumps with e2 | s
          · simp [publish_data_to_pubsub, hv]
          · rcases publishResult with e4 | msgId
            · simp [publish_data_to_pubsub, hv]
            · simp [publish_data_to_pubsub, hv]

theorem C9_publish_success_iff_witness :
    (publish_data (.ok []) (.ok "payload") (.ok 0) = true ↔
      (∃ d, (Except.ok [] : Except String PyDict) = .ok d ∧
          (validate_data d).isSome = true) ∧
        (∃ s, (Except.ok "payload" : Except String String) = .ok s) ∧
        (Except.ok 0 : Except String Int) = .ok MQTT_ERR_SUCCESS) ∧
    (publish_data_to_pubsub (.ok ()) (.ok []) (.ok "payload") (.ok "mid1")
        = true ↔
      (Except.ok () : Except String Unit) = .ok () ∧
        (∃ d, (Except.ok [] : Except String PyDict) = .ok d ∧
            (validate_data d).isSome = true) ∧
        (∃ s, (Except.ok "payload" : Except String String) = .ok s) ∧
        ∃ msgId, (Except.ok "mid1" : Except String String) = .ok msgId) :=
  C9_publish_success_iff (.ok []) (.ok "payload") (.ok 0) (.ok ())
    (.ok "mid1")

/-- C10: `get_system_metrics` always returns a dict (the full mapping
or the error-marker), so on every builder-produced sample
`validate_data` succeeds and never appends "Missing system metrics",
even when metric collection failed and the error-marker was
substituted. -/
theorem C10_builder_metrics_dict (cpu : Option ℚ)
    (m : Except String RawMetrics) (device_id timestamp : String)
    (sample_interval : Int) :
    isDict (get_system_metrics m) = true ∧
    ∃ d', validate_data (get_env_monitoring_data device_id timestamp
        sample_interval (get_cpu_temperature cpu) (get_system_metrics m))
        = some d' ∧
      countWarning d' "Missing system metrics" = 0 := by
  have hdict : isDict (get_system_metrics m) = true := by cases m <;> rfl
  refine ⟨hdict, ?_⟩
  set b := get_env_monitoring_data device_id timestamp sample_interval
    (get_cpu_temperature cpu) (get_system_metrics m) with hb
  have ht : tempOk b = true := by
    rw [hb]
    cases cpu with
    | none => rfl
    | some q => rfl
  have hwOk : warningsOk b = true := by rw [hb]; rfl
  have hsome := validate_data_isSome b ht hwOk
  rcases Option.isSome_iff_exists.mp hsome with ⟨d', hd'⟩
  refine ⟨d', hd', ?_⟩
  have hchar := validate_data_warnings b d' hd'
  have hmm : metricsMissing b = false := by
    rw [hb]
    cases m <;> rfl
  have hgwb : getWarnings b = [] := by rw [hb]; rfl
  unfold countWarning
  rw [hchar, hgwb, hmm]
  by_cases hA : tempAbnormal b = true <;> simp [hA, isWarnStr]

theorem C10_builder_metrics_dict_witness :
    isDict (get_system_metrics (.error "boom")) = true ∧
    ∃ d', validate_data (get_env_monitoring_data "dev" "t0" 60
        (get_cpu_temperature (some 150)) (get_system_metrics (.error "boom")))
        = some d' ∧
      countWarning d' "Missing system metrics" = 0 :=
  C10_builder_metrics_dict (some 150) (.error "boom") "dev" "t0" 60

end EnvMonitor
